import Mathlib

/-!
Verification of the POC_AOSP hello-world pipeline: a kernel sysfs driver
(hello_world_driver.c), a HAL service (HelloWorld.cpp, two copies), the
service daemons (service.cpp, two copies) and the JNI bridges
(hello_world_jni.cpp, two copies).  Each C/C++ function is shallowly
embedded as a Lean function over the inputs it branches on.
-/

/-- Linux errno EINVAL (invalid argument). -/
def EINVAL : Int := 22

/-- Linux errno ENOMEM (out of memory). -/
def ENOMEM : Int := 12

/-- Size of the local buffer `char tmp[128]` in `hello_print`. -/
def tmpSize : Nat := 128

/-- Effect of C `strncpy(dst, src, n)` on the first `n` bytes of `dst`:
bytes of `src` up to (excluding) its first NUL are copied, the remaining
bytes up to `n` are filled with NUL.  Bytes are modelled as `Nat`. -/
def strncpyList : List Nat → Nat → List Nat
  | _, 0 => []
  | [], n + 1 => List.replicate (n + 1) 0
  | b :: rest, n + 1 =>
      if b = 0 then List.replicate (n + 1) 0 else b :: strncpyList rest n

/-- Result of the sysfs store callback `hello_print`: the returned
`ssize_t`, the written prefix of the local buffer `tmp` (the `count + 1`
bytes the callback defines, terminator included; `none` when rejected),
and the C string logged by the final `pr_info` (`none` when rejected). -/
structure StoreResult where
  ret : Int
  tmp : Option (List Nat)
  logged : Option (List Nat)
  deriving DecidableEq

/-- Shallow embedding of `hello_print` in hello_world_driver.c:
reject with `-EINVAL` when `count >= sizeof(tmp)` (128); otherwise
`strncpy(tmp, buf, count)`, `tmp[count] = 0`, and log `tmp` as a C
string (bytes up to the first NUL). -/
def hello_print (buf : List Nat) (count : Nat) : StoreResult :=
  if tmpSize ≤ count then
    ⟨-EINVAL, none, none⟩
  else
    let t := strncpyList buf count ++ [0]
    ⟨(count : Int), some t, some (t.takeWhile (fun b => b != 0))⟩

/-- Result of module initialization `hello_sysfs_init`: return value and
which side effects happened. -/
structure InitResult where
  ret : Int
  kobjCreated : Bool
  fileCreated : Bool
  kobjReleased : Bool
  deriving DecidableEq

/-- Shallow embedding of `hello_sysfs_init` in hello_world_driver.c.
`kobjOk` is whether `kobject_create_and_add` returns non-NULL;
`createFileRet` is the value `sysfs_create_file` returns (0 on success,
a negative errno on failure). -/
def hello_sysfs_init (kobjOk : Bool) (createFileRet : Int) : InitResult :=
  if !kobjOk then
    ⟨-ENOMEM, false, false, false⟩
  else if createFileRet ≠ 0 then
    ⟨createFileRet, true, false, true⟩
  else
    ⟨0, true, true, false⟩

/-- Binder status returned by `HelloWorld::sayHello`: `ScopedAStatus::ok()`
or `fromExceptionCode(EX_ILLEGAL_STATE)`. -/
inductive AStatus where
  | ok : AStatus
  | exIllegalState : AStatus
  deriving DecidableEq

/-- Observable outcome of one `sayHello` call: returned status, the list
of strings successfully written to the sysfs file, and whether the file
was closed via the success path. -/
structure HalResult where
  status : AStatus
  writes : List String
  closed : Bool
  deriving DecidableEq

/-- Shallow embedding of `HelloWorld::sayHello` in
src/interfaces/helloworld/default/HelloWorld.cpp.  `openOk` is whether
`std::ofstream` opened /sys/kernel/hello_world/hello; `writeOk` is
whether `file << message` left the stream in a good state. -/
def sayHello_default (openOk writeOk : Bool) (message : String) : HalResult :=
  if !openOk then
    ⟨AStatus.exIllegalState, [], false⟩
  else if !writeOk then
    ⟨AStatus.exIllegalState, [], false⟩
  else
    ⟨AStatus.ok, [message], true⟩

/-- Shallow embedding of `HelloWorld::sayHello` in
src/HelloWorld/AOSP/vendor/brcm/interfaces/helloworld/default/HelloWorld.cpp,
translated from that copy on its own. -/
def sayHello_aosp (openOk writeOk : Bool) (message : String) : HalResult :=
  if !openOk then
    ⟨AStatus.exIllegalState, [], false⟩
  else if !writeOk then
    ⟨AStatus.exIllegalState, [], false⟩
  else
    ⟨AStatus.ok, [message], true⟩

/-- `STATUS_OK` of libbinder_ndk. -/
def STATUS_OK : Int := 0

/-- Outcome of a service daemon `main`: the exit code and whether
`ABinderProcess_joinThreadPool` (the serving loop) was entered. -/
structure MainResult where
  exitCode : Int
  joinedThreadPool : Bool
  deriving DecidableEq

/-- Shallow embedding of `main` in
src/interfaces/helloworld/default/service.cpp, as a function of the
status `AServiceManager_addService` returns. -/
def main_default (addServiceStatus : Int) : MainResult :=
  if addServiceStatus ≠ STATUS_OK then ⟨-1, false⟩ else ⟨0, true⟩

/-- Shallow embedding of `main` in
src/vendor/brcm/interfaces/helloworld/default/service.cpp (the copy that
also calls `ABinderProcess_setThreadPoolMaxThreadCount(0)` first, which
has no bearing on the modelled observables). -/
def main_vendor (addServiceStatus : Int) : MainResult :=
  if addServiceStatus ≠ STATUS_OK then ⟨-1, false⟩ else ⟨0, true⟩

/-- JNI boolean false (0). -/
def JNI_FALSE : Nat := 0

/-- JNI boolean true (1). -/
def JNI_TRUE : Nat := 1

/-- Conversion of a C `int` value to `jboolean` (`uint8_t`): reduction
modulo 2^8. -/
def jbooleanOfInt (i : Int) : Nat := (i % 256).toNat

/-- Environment a JNI bridge call runs in: whether the service instance
is declared (`AServiceManager_isDeclared`), whether `GetStringUTFChars`
returns non-NULL, whether `AServiceManager_getService` finds the binder,
whether `IHelloWorld::fromBinder` yields a non-null service, and whether
the remote `sayHello` call returns an ok status. -/
structure JniEnvModel where
  declared : Bool
  convOk : Bool
  binderFound : Bool
  castOk : Bool
  callOk : Bool
  deriving DecidableEq

/-- Outcome of one JNI bridge call: the `jboolean` returned (as a `Nat`
in [0, 256)) and how many times `ReleaseStringUTFChars` ran. -/
structure JniResult where
  ret : Nat
  releases : Nat
  deriving DecidableEq

/-- Shallow embedding of
`Java_com_example_helloworld_HelloWorldNative_sayHelloNative` in
src/vendor/brcm/apps/HelloWorld/hello_world_jni.cpp: checks
`AServiceManager_isDeclared` first and returns the C literal `-1`
(converted to `jboolean`) when the service is not declared; converts the
string only after that check. -/
def sayHelloNative_vendor (e : JniEnvModel) : JniResult :=
  if !e.declared then
    ⟨jbooleanOfInt (-1), 0⟩
  else if !e.convOk then
    ⟨JNI_FALSE, 0⟩
  else if !e.binderFound then
    ⟨JNI_FALSE, 1⟩
  else if !e.castOk then
    ⟨JNI_FALSE, 1⟩
  else if !e.callOk then
    ⟨JNI_FALSE, 1⟩
  else
    ⟨JNI_TRUE, 1⟩

/-- Shallow embedding of
`Java_com_example_helloworld_HelloWorldNative_sayHelloNative` in
src/apps/HelloWorld/hello_world_jni.cpp: converts the string first
(without a NULL check, so `e.convOk` does not change the control flow)
and releases it on every return path. -/
def sayHelloNative_apps (e : JniEnvModel) : JniResult :=
  if !e.binderFound then
    ⟨JNI_FALSE, 1⟩
  else if !e.castOk then
    ⟨JNI_FALSE, 1⟩
  else if !e.callOk then
    ⟨JNI_FALSE, 1⟩
  else
    ⟨JNI_TRUE, 1⟩

/-- Helper: `takeWhile` never lengthens a list. -/
theorem takeWhile_length_le (p : Nat → Bool) (l : List Nat) :
    (l.takeWhile p).length ≤ l.length := by
  induction l with
  | nil => simp
  | cons a l ih =>
      rw [List.takeWhile_cons]
      by_cases hpa : p a = true
      · simp only [hpa, if_true, List.length_cons]
        omega
      · simp [hpa]

/-- Helper: `strncpyList src n` is the source up to its first NUL, padded
with NUL bytes to length `n`, provided `n` bytes are readable. -/
theorem strncpyList_eq (src : List Nat) : ∀ n : Nat, n ≤ src.length →
    strncpyList src n =
      ((src.take n).takeWhile fun b => b != 0) ++
        List.replicate (n - ((src.take n).takeWhile fun b => b != 0).length) 0 := by
  induction src with
  | nil =>
      intro n hn
      have h0 : n = 0 := Nat.le_zero.mp hn
      subst h0
      rfl
  | cons b rest ih =>
      intro n hn
      cases n with
      | zero => rfl
      | succ m =>
          by_cases hb : b = 0
          · subst hb
            simp [strncpyList, List.take_succ_cons, List.takeWhile_cons]
          · have hm : m ≤ rest.length := by
              simp only [List.length_cons] at hn
              omega
            have hpb : (b != 0) = true := by simpa using hb
            have lhs : strncpyList (b :: rest) (m + 1) = b :: strncpyList rest m := by
              simp [strncpyList, hb]
            rw [lhs, ih m hm, List.take_succ_cons, List.takeWhile_cons]
            simp [hpb, Nat.succ_sub_succ]

/-- Helper: `takeWhile (b != 0)` of a NUL-free list followed by a NUL
block is the NUL-free list itself. -/
theorem takeWhile_ne_zero_append (A : List Nat) (k : Nat)
    (hA : ∀ a ∈ A, a ≠ 0) :
    ((A ++ List.replicate (k + 1) 0).takeWhile fun b => b != 0) = A := by
  induction A with
  | nil => simp [List.replicate_succ, List.takeWhile_cons]
  | cons a A ih =>
      have ha : (a != 0) = true := by simpa using hA a (List.mem_cons_self a A)
      rw [List.cons_append, List.takeWhile_cons]
      simp only [ha, if_true]
      rw [ih (fun x hx => hA x (List.mem_cons_of_mem a hx))]

set_option maxRecDepth 10000 in
/-- C1 counterexample: a write of exactly 127 bytes is accepted by
`hello_print` (return value 127, input logged), so "every count >= 127
is rejected with an invalid-argument error and nothing is written" is
false at count = 127: the code only rejects count >= 128. -/
theorem hello_print_count_127_accepted :
    (hello_print (List.replicate 127 104) 127).ret = 127 ∧
    (hello_print (List.replicate 127 104) 127).ret ≠ -EINVAL ∧
    (hello_print (List.replicate 127 104) 127).logged =
      some (List.replicate 127 104) := by
  decide

/-- C1 (amended): for every input length count >= 128 bytes, the store
callback rejects the write with -EINVAL and writes nothing to its local
buffer or the log. -/
theorem hello_print_rejects_large (buf : List Nat) (count : Nat)
    (h : 128 ≤ count) :
    hello_print buf count = ⟨-EINVAL, none, none⟩ := by
  have hts : tmpSize ≤ count := h
  simp [hello_print, hts]

/-- Witness for C1 (amended) at count = 128. -/
theorem hello_print_rejects_large_witness :
    hello_print [] 128 = ⟨-EINVAL, none, none⟩ :=
  hello_print_rejects_large [] 128 (by decide)

/-- C2: `hello_print` returns -EINVAL iff count >= 128 (the buffer
capacity), and for every count < 128 it returns exactly count. -/
theorem hello_print_ret_spec (buf : List Nat) (count : Nat) :
    ((hello_print buf count).ret = -EINVAL ↔ 128 ≤ count) ∧
    (count < 128 → (hello_print buf count).ret = (count : Int)) := by
  unfold hello_print
  by_cases h : tmpSize ≤ count
  · rw [if_pos h]
    have h128 : 128 ≤ count := h
    exact ⟨⟨fun _ => h128, fun _ => rfl⟩, fun hc => absurd h128 (by omega)⟩
  · rw [if_neg h]
    have h128 : ¬ 128 ≤ count := h
    refine ⟨⟨fun hc => ?_, fun hc => absurd hc h128⟩, fun hc => rfl⟩
    exfalso
    have hci : (count : Int) = -EINVAL := hc
    simp only [EINVAL] at hci
    omega

/-- Witness for C2 at count = 2 (success, returns 2) and count = 200
(the -EINVAL characterization). -/
theorem hello_print_ret_spec_witness :
    (hello_print [104, 105] 2).ret = (2 : Int) ∧
    ((hello_print [] 200).ret = -EINVAL ↔ 128 ≤ 200) := by
  constructor
  · exact (hello_print_ret_spec [104, 105] 2).2 (by decide)
  · exact (hello_print_ret_spec [] 200).1

/-- C3 counterexample: with buf = [97, 0, 98] and count = 3 the local
buffer receives [97, 0, 0, 0] and not the three bytes of buf followed by
a terminator ([97, 0, 98, 0]): strncpy stops copying at the embedded NUL
and zero-fills, so "copies exactly count bytes of buf" is false. -/
theorem hello_print_copy_cex :
    (hello_print [97, 0, 98] 3).tmp = some [97, 0, 0, 0] ∧
    (hello_print [97, 0, 98] 3).tmp ≠ some ([97, 0, 98] ++ [0]) := by
  decide

/-- C3 (amended): for every buf and count < 128 with count bytes
readable, the callback returns count, fills its local buffer with the
bytes of buf up to the first NUL followed by NUL padding through
position count, and logs the bytes of buf up to the first embedded NUL
or up to count. -/
theorem hello_print_copy (buf : List Nat) (count : Nat)
    (h1 : count < 128) (h2 : count ≤ buf.length) :
    (hello_print buf count).ret = (count : Int) ∧
    (hello_print buf count).tmp =
      some (((buf.take count).takeWhile fun b => b != 0) ++
        List.replicate
          (count + 1 - ((buf.take count).takeWhile fun b => b != 0).length) 0) ∧
    (hello_print buf count).logged =
      some ((buf.take count).takeWhile fun b => b != 0) := by
  have hts : ¬ tmpSize ≤ count := by
    simp only [tmpSize]
    omega
  have hL : ((buf.take count).takeWhile fun b => b != 0).length ≤ count := by
    calc ((buf.take count).takeWhile fun b => b != 0).length
        ≤ (buf.take count).length := takeWhile_length_le _ _
      _ ≤ count := by
          simp [List.length_take]
  have htmp : strncpyList buf count ++ [0] =
      ((buf.take count).takeWhile fun b => b != 0) ++
        List.replicate
          (count + 1 - ((buf.take count).takeWhile fun b => b != 0).length) 0 := by
    rw [strncpyList_eq buf count h2, List.append_assoc]
    congr 1
    rw [← List.replicate_succ']
    congr 1
    omega
  have hlog : ((strncpyList buf count ++ [0]).takeWhile fun b => b != 0) =
      (buf.take count).takeWhile fun b => b != 0 := by
    rw [htmp]
    have hk : count + 1 - ((buf.take count).takeWhile fun b => b != 0).length =
        (count - ((buf.take count).takeWhile fun b => b != 0).length) + 1 := by
      omega
    rw [hk]
    refine takeWhile_ne_zero_append _ _ (fun a ha => ?_)
    have hmem := List.mem_takeWhile_imp ha
    simpa using hmem
  unfold hello_print
  rw [if_neg hts]
  refine ⟨rfl, ?_, ?_⟩
  · show some (strncpyList buf count ++ [0]) = _
    exact congrArg some htmp
  · show some ((strncpyList buf count ++ [0]).takeWhile fun b => b != 0) = _
    exact congrArg some hlog

/-- Witness for C3 (amended) at buf = "hi\0x", count = 4: the buffer
gets "hi" plus three NULs, the log gets "hi". -/
theorem hello_print_copy_witness :
    (hello_print [104, 105, 0, 120] 4).ret = (4 : Int) ∧
    (hello_print [104, 105, 0, 120] 4).tmp = some [104, 105, 0, 0, 0] ∧
    (hello_print [104, 105, 0, 120] 4).logged = some [104, 105] := by
  have h := hello_print_copy [104, 105, 0, 120] 4 (by decide) (by decide)
  refine ⟨h.1, ?_, ?_⟩
  · rw [h.2.1]
    decide
  · rw [h.2.2]
    decide

/-- C9: `hello_sysfs_init` returns the negative error -ENOMEM when
kobject creation fails (no side effect), propagates the negative error
of `sysfs_create_file` after releasing the partially created kobject,
and on success returns 0 with both the kobject and the file created. -/
theorem hello_sysfs_init_spec (kobjOk : Bool) (r : Int) :
    (kobjOk = false →
      hello_sysfs_init kobjOk r = ⟨-ENOMEM, false, false, false⟩ ∧
        -ENOMEM < 0) ∧
    (kobjOk = true → r < 0 →
      hello_sysfs_init kobjOk r = ⟨r, true, false, true⟩) ∧
    (kobjOk = true → r = 0 →
      hello_sysfs_init kobjOk r = ⟨0, true, true, false⟩) := by
  refine ⟨?_, ?_, ?_⟩
  · intro hk
    subst hk
    exact ⟨rfl, by decide⟩
  · intro hk hr
    subst hk
    have hne : r ≠ 0 := by omega
    simp [hello_sysfs_init, hne]
  · intro hk hr
    subst hk
    subst hr
    rfl

/-- Witness for C9: allocation failure, file-creation failure with
errno -17, and success. -/
theorem hello_sysfs_init_spec_witness :
    hello_sysfs_init false 0 = ⟨-ENOMEM, false, false, false⟩ ∧
    hello_sysfs_init true (-17) = ⟨-17, true, false, true⟩ ∧
    hello_sysfs_init true 0 = ⟨0, true, true, false⟩ :=
  ⟨((hello_sysfs_init_spec false 0).1 rfl).1,
   (hello_sysfs_init_spec true (-17)).2.1 rfl (by decide),
   (hello_sysfs_init_spec true 0).2.2 rfl rfl⟩

/-- C4: when the sysfs file cannot be opened, both copies of
`HelloWorld::sayHello` return the fatal EX_ILLEGAL_STATE status and
perform no write at all (and never reach the close on the success
path). -/
theorem sayHello_open_fail (openOk writeOk : Bool) (message : String)
    (h : openOk = false) :
    sayHello_default openOk writeOk message =
      ⟨AStatus.exIllegalState, [], false⟩ ∧
    sayHello_aosp openOk writeOk message =
      ⟨AStatus.exIllegalState, [], false⟩ := by
  subst h
  exact ⟨rfl, rfl⟩

/-- Witness for C4 with message "hi" and a failing open. -/
theorem sayHello_open_fail_witness :
    sayHello_default false true "hi" = ⟨AStatus.exIllegalState, [], false⟩ ∧
    sayHello_aosp false true "hi" = ⟨AStatus.exIllegalState, [], false⟩ :=
  sayHello_open_fail false true "hi" rfl

/-- C5: when the open and the stream write both succeed, both copies of
`HelloWorld::sayHello` write exactly the message (once, nothing else),
close the file, and return the ok status. -/
theorem sayHello_success (openOk writeOk : Bool) (message : String)
    (ho : openOk = true) (hw : writeOk = true) :
    sayHello_default openOk writeOk message =
      ⟨AStatus.ok, [message], true⟩ ∧
    sayHello_aosp openOk writeOk message =
      ⟨AStatus.ok, [message], true⟩ := by
  subst ho
  subst hw
  exact ⟨rfl, rfl⟩

/-- Witness for C5 with message "hi". -/
theorem sayHello_success_witness :
    sayHello_default true true "hi" = ⟨AStatus.ok, ["hi"], true⟩ ∧
    sayHello_aosp true true "hi" = ⟨AStatus.ok, ["hi"], true⟩ :=
  sayHello_success true true "hi" rfl rfl

/-- C10: the two copies of `HelloWorld::sayHello` are behaviourally
equivalent: for every message and every file-system outcome they return
the same status and perform the same writes. -/
theorem sayHello_copies_equivalent (openOk writeOk : Bool)
    (message : String) :
    sayHello_default openOk writeOk message =
      sayHello_aosp openOk writeOk message := rfl

/-- C6 (evaluation at the failing input): in the vendor/brcm JNI bridge,
when the service is not declared the function returns the jboolean 255
(the C literal -1 truncated to uint8_t), which is neither JNI_FALSE nor
JNI_TRUE — contradicting the claim and the function's own doc comment
("JNI_FALSE otherwise"); the src/apps copy does return JNI_FALSE when
the service is not found. -/
theorem sayHelloNative_not_declared_bug :
    (sayHelloNative_vendor ⟨false, true, true, true, true⟩).ret = 255 ∧
    (255 : Nat) ≠ JNI_FALSE ∧ (255 : Nat) ≠ JNI_TRUE ∧
    (sayHelloNative_apps ⟨false, true, false, true, true⟩).ret =
      JNI_FALSE := by
  decide

/-- C7: on every exit path where the Java string was successfully
converted to a native UTF-8 string, ReleaseStringUTFChars runs exactly
once before the return, in both JNI bridge copies (in the vendor copy
conversion is only attempted once the service is declared). -/
theorem sayHelloNative_releases_once (e : JniEnvModel)
    (hconv : e.convOk = true) :
    (e.declared = true → (sayHelloNative_vendor e).releases = 1) ∧
    (sayHelloNative_apps e).releases = 1 := by
  obtain ⟨d, c, bf, ck, cl⟩ := e
  have hc : c = true := hconv
  subst hc
  refine ⟨fun hd => ?_, ?_⟩
  · subst hd
    cases bf <;> cases ck <;> cases cl <;> rfl
  · cases d <;> cases bf <;> cases ck <;> cases cl <;> rfl

/-- Witness for C7 on the all-success path of both bridges. -/
theorem sayHelloNative_releases_once_witness :
    (sayHelloNative_vendor ⟨true, true, true, true, true⟩).releases = 1 ∧
    (sayHelloNative_apps ⟨true, true, true, true, true⟩).releases = 1 :=
  ⟨(sayHelloNative_releases_once ⟨true, true, true, true, true⟩ rfl).1 rfl,
   (sayHelloNative_releases_once ⟨true, true, true, true, true⟩ rfl).2⟩

/-- C8: both service daemons exit with the non-zero code -1 and never
enter the serving loop (`ABinderProcess_joinThreadPool`) when
`AServiceManager_addService` fails, and they enter the serving loop
exactly when registration succeeds. -/
theorem main_registration_spec (s : Int) :
    (s ≠ STATUS_OK →
      main_default s = ⟨-1, false⟩ ∧ main_vendor s = ⟨-1, false⟩ ∧
        (-1 : Int) ≠ 0) ∧
    (s = STATUS_OK →
      main_default s = ⟨0, true⟩ ∧ main_vendor s = ⟨0, true⟩) := by
  constructor
  · intro hs
    exact ⟨by simp [main_default, hs], by simp [main_vendor, hs], by decide⟩
  · intro hs
    subst hs
    exact ⟨by simp [main_default], by simp [main_vendor]⟩

/-- Witness for C8: a failed registration (status -8) and a successful
one (STATUS_OK). -/
theorem main_registration_spec_witness :
    (main_default (-8) = ⟨-1, false⟩ ∧ main_vendor (-8) = ⟨-1, false⟩ ∧
      (-1 : Int) ≠ 0) ∧
    (main_default 0 = ⟨0, true⟩ ∧ main_vendor 0 = ⟨0, true⟩) :=
  ⟨(main_registration_spec (-8)).1 (by decide),
   (main_registration_spec 0).2 rfl⟩
